import Mathlib

/-!
Shallow embedding of `src/llm_clients/customOpenAI_client.ts`
(`CustomOpenAIClient.createChatCompletion`) from the pec-course-monitor
repository, together with theorems settling the frozen claims about it.

The embedding follows the TypeScript source line by line:
* the message normalizer (lines 104-218),
* the request builder (lines 77-90 and 220-234),
* the invoker / retry controller (lines 236-291),
* `validateZodSchema` (lines 32-39).

JavaScript-specific conventions used throughout:
* a field that may be `null`/`undefined`/absent is an `Option`;
* the truthiness test `!extractedData` on a `string | null` is modelled as
  "`none` or the empty string";
* an exception that the source does not catch (the `TypeError` from
  `response.choices[0]` on an empty `choices` array, the `SyntaxError`
  from `JSON.parse`) is a distinct error constructor, kept separate from
  the `Error` values the source throws deliberately;
* `JSON.parse` is a platform builtin, not repository code, so the client
  is parametric in a parse function `String → Option J` (`none` models a
  thrown `SyntaxError`) and in the parsed-value type `J`.
-/

namespace CustomOpenAI

/-- Message roles.  The source's `ChatMessage.role` is one of
`"system" | "user" | "assistant"`; the normalizer tests `=== "system"`,
`=== "user"` and treats everything else as assistant. -/
inductive Role where
  | system
  | user
  | assistant
  deriving Repr, DecidableEq

/-- A raw content part of an incoming message, as inspected by the
normalizer (lines 107-130).  `image_url = some u` models the part having a
truthy `image_url` field whose `url` subfield is `u`; `text = some t`
models the part having a `text` field holding `t` (possibly the empty
string, which is falsy in JS).  `none` covers an absent or falsy field. -/
structure RawPart where
  image_url : Option String
  text : Option String
  deriving Repr, DecidableEq

/-- A wire-ready content part: `ChatCompletionContentPartText` or
`ChatCompletionContentPartImage` as constructed in lines 109-129. -/
inductive NormPart where
  | text (t : String)
  | image (url : String)
  deriving Repr, DecidableEq

/-- The filter predicate `content.type === "text"` used for system and
assistant messages (lines 136-139 and 153-156). -/
def NormPart.isTextPart : NormPart → Bool
  | .text _ => true
  | .image _ => false

/-- Content of an incoming message: a plain string or an array of parts
(the source branches on `Array.isArray(message.content)`, line 106). -/
inductive Content where
  | str (s : String)
  | parts (ps : List RawPart)
  deriving Repr, DecidableEq

/-- An incoming chat message. -/
structure Message where
  role : Role
  content : Content
  deriving Repr, DecidableEq

/-- The caller-supplied standalone image attachment (the `image` option,
lines 163-192): a bare URL string, an object with a string `url` field, an
object with a truthy `buffer` field (raw bytes, each 0-255), or any other
unsupported shape (which the source handles with a `console.warn`
fallback). -/
inductive ImageAttachment where
  | urlString (s : String)
  | urlObj (url : String)
  | bufferObj (bytes : List Nat)
  | unsupported
  deriving Repr, DecidableEq

/-- Content of a normalized (wire-ready) message: either the original
plain content passed through unchanged or an array of classified parts. -/
inductive NormContent where
  | str (s : String)
  | parts (ps : List NormPart)
  deriving Repr, DecidableEq

/-- A wire-ready message (`ChatCompletionMessageParam`). -/
structure NormMessage where
  role : Role
  content : NormContent
  deriving Repr, DecidableEq

/-- The base64 alphabet, as used by `Buffer.prototype.toString("base64")`. -/
def base64Alphabet : List Char :=
  [ 'A', 'B', 'C', 'D', 'E', 'F', 'G', 'H', 'I', 'J', 'K', 'L', 'M',
    'N', 'O', 'P', 'Q', 'R', 'S', 'T', 'U', 'V', 'W', 'X', 'Y', 'Z',
    'a', 'b', 'c', 'd', 'e', 'f', 'g', 'h', 'i', 'j', 'k', 'l', 'm',
    'n', 'o', 'p', 'q', 'r', 's', 't', 'u', 'v', 'w', 'x', 'y', 'z',
    '0', '1', '2', '3', '4', '5', '6', '7', '8', '9', '+', '/' ]

/-- The base64 digit for a 6-bit value. -/
def b64Digit (n : Nat) : Char := base64Alphabet.getD n 'A'

/-- Standard padded base64 of a byte sequence, the embedding of
`Buffer.from(bytes).toString("base64")` (line 174). -/
def base64Encode : List Nat → String
  | [] => ""
  | [a] =>
      String.mk [b64Digit (a / 4), b64Digit (a % 4 * 16), '=', '=']
  | [a, b] =>
      String.mk [b64Digit (a / 4), b64Digit (a % 4 * 16 + b / 16),
        b64Digit (b % 16 * 4), '=']
  | a :: b :: c :: rest =>
      String.mk [b64Digit (a / 4), b64Digit (a % 4 * 16 + b / 16),
        b64Digit (b % 16 * 4 + c / 64), b64Digit (c % 64)]
        ++ base64Encode rest

/-- Resolution of the standalone image attachment to a URL (lines
165-192).  A bare string or a `{url}` object is used verbatim; a
`{buffer}` object is base64-encoded into a data URI with the hardcoded
MIME type `image/jpeg` (line 175); any other shape yields `none`,
modelling the `console.warn` fallback branches. -/
def resolveImageUrl : ImageAttachment → Option String
  | .urlString s => some s
  | .urlObj u => some u
  | .bufferObj bs => some ("data:image/jpeg;base64," ++ base64Encode bs)
  | .unsupported => none

/-- Classification of one raw content part (lines 107-130): a truthy
`image_url` field wins and yields an image part keeping only its `url`; a
present truthy `text` field yields a text part; anything else falls back
to the empty text part (lines 124-129). -/
def classifyPart (p : RawPart) : NormPart :=
  match p.image_url with
  | some u => .image u
  | none =>
      match p.text with
      | some t => if t ≠ "" then .text t else .text ""
      | none => .text ""

/-- Classification of a whole part array (`const contentParts = ...`,
line 107). -/
def classifyParts (ps : List RawPart) : List NormPart :=
  ps.map classifyPart

/-- Normalization of one message (the body of the `options.messages.map`
callback, lines 105-218), given the standalone `image` option. -/
def formatMessage (image : Option ImageAttachment) (m : Message) : NormMessage :=
  match m.content with
  | .parts ps =>
      match m.role with
      | .system =>
          { role := .system
            content := .parts ((classifyParts ps).filter NormPart.isTextPart) }
      | .user =>
          { role := .user, content := .parts (classifyParts ps) }
      | .assistant =>
          { role := .assistant
            content := .parts ((classifyParts ps).filter NormPart.isTextPart) }
  | .str s =>
      match m.role, image with
      | .user, some img =>
          match resolveImageUrl img with
          | some url =>
              { role := .user
                content := .parts [.text s, .image url] }
          | none =>
              -- console.warn fallback: the message passes through unchanged
              { role := .user, content := .str s }
      | _, _ =>
          -- lines 212-217: everything else passes through as a user message
          { role := .user, content := .str s }

/-- Normalization of the whole message list (`options.messages.map`,
lines 104-218). -/
def formatMessages (image : Option ImageAttachment) (messages : List Message) :
    List NormMessage :=
  messages.map (formatMessage image)

/-- Re-injection of a wire-ready part as a raw part, for re-normalization:
a normalized text part carries a `text` field and no `image_url` field; a
normalized image part carries a truthy `image_url` object and no `text`
field. -/
def normPartToRaw : NormPart → RawPart
  | .text t => { image_url := none, text := some t }
  | .image u => { image_url := some u, text := none }

/-- Re-injection of a wire-ready message as an incoming message. -/
def normMessageToMessage (n : NormMessage) : Message :=
  { role := n.role
    content :=
      match n.content with
      | .str s => .str s
      | .parts qs => .parts (qs.map normPartToRaw) }

/-- The caller's response model (`options.response_model`): a named schema
carrying the validation predicate.  `validate` is the embedding of
`validateZodSchema options.response_model.schema` (lines 32-39), which
returns `true` exactly when `schema.parse` does not throw. -/
structure Schema (J : Type) where
  name : String
  validate : J → Bool

/-- A tool declaration supplied by the caller (`options.tools`). -/
structure Tool where
  name : String
  description : String
  parameters : String
  deriving Repr, DecidableEq

/-- A provider-side function declaration, the image of one tool under the
mapping in lines 226-233. -/
structure ToolOut where
  name : String
  description : String
  parameters : String
  deriving Repr, DecidableEq

/-- The caller-supplied options (`CreateChatCompletionOptions.options`).
`params` is the passthrough bag of generation parameters (temperature,
token limits, ...), opaque to the client; `requestId` is only echoed into
the post-receipt log record. -/
structure Options (J : Type) where
  messages : List Message
  image : Option ImageAttachment
  response_model : Option (Schema J)
  tools : Option (List Tool)
  params : List (String × String)
  requestId : Option String

/-- The outgoing non-streaming request body (lines 220-234).
`response_format` records the name of the schema-derived response format
(`zodResponseFormat(schema, name)`, lines 77-83), or `none` when no
response model was requested. -/
structure RequestBody where
  model : String
  messages : List NormMessage
  response_format : Option String
  stream : Bool
  tools : Option (List ToolOut)
  params : List (String × String)
  deriving Repr, DecidableEq

/-- Construction of the request body from the options (lines 77-90 and
220-234). -/
def buildBody {J : Type} (modelName : String) (options : Options J) : RequestBody :=
  { model := modelName
    messages := formatMessages options.image options.messages
    response_format := options.response_model.map (fun rm => rm.name)
    stream := false
    tools := options.tools.map (List.map
      (fun t => { name := t.name, description := t.description,
                  parameters := t.parameters }))
    params := options.params }

/-- The message inside one provider choice; `content` is
`string | null`. -/
structure ChoiceMessage where
  content : Option String
  deriving Repr, DecidableEq

/-- One provider choice. -/
structure Choice where
  message : ChoiceMessage
  deriving Repr, DecidableEq

/-- Optional usage counters on the provider response; each field may be
absent (`response.usage?.prompt_tokens ?? 0`, lines 276-278). -/
structure UsageIn where
  prompt_tokens : Option Nat
  completion_tokens : Option Nat
  total_tokens : Option Nat
  deriving Repr, DecidableEq

/-- The provider's chat-completion response (`ChatCompletion`). -/
structure ProviderResponse where
  choices : List Choice
  usage : Option UsageIn
  deriving Repr, DecidableEq

/-- The usage record placed into the result envelope, with 0 substituted
for any counter the provider omits (lines 275-279 and 285-289). -/
structure UsageOut where
  prompt_tokens : Nat
  completion_tokens : Nat
  total_tokens : Nat
  deriving Repr, DecidableEq

/-- Usage extraction (`response.usage?.x ?? 0`). -/
def usageOf (r : ProviderResponse) : UsageOut :=
  { prompt_tokens := (r.usage.bind UsageIn.prompt_tokens).getD 0
    completion_tokens := (r.usage.bind UsageIn.completion_tokens).getD 0
    total_tokens := (r.usage.bind UsageIn.total_tokens).getD 0 }

/-- The `data` field of the result envelope: the schema path returns the
parsed structured value (line 274), the no-schema path returns the raw
(possibly null) textual payload (line 284). -/
inductive ResultData (J : Type) where
  | parsed (v : J)
  | raw (s : Option String)
  deriving Repr, DecidableEq

/-- The envelope returned to the caller on terminal success. -/
structure ResultEnvelope (J : Type) where
  data : ResultData J
  usage : UsageOut
  deriving Repr, DecidableEq

/-- How a call can fail:
* `emptyResponse` — `throw new Error("No content in response")`, line 257;
* `invalidSchema` — `throw new Error("Invalid response schema")`, line 270;
* `transportFailure` — the awaited `this.client.chat.completions.create`
  rejected (line 236); propagated as-is;
* `jsonParseError` — the `SyntaxError` thrown by `JSON.parse` on line 259;
  the source does not catch it, so it propagates untyped;
* `choicesAccessError` — the `TypeError` from `response.choices[0].message`
  when `choices` is empty (lines 255 and 284); likewise uncaught. -/
inductive ClientError where
  | emptyResponse
  | invalidSchema
  | transportFailure
  | jsonParseError
  | choicesAccessError
  deriving Repr, DecidableEq

/-- One invocation of the caller-supplied `logger` sink.  The source
invokes it three times per attempt: lines 58-75 (the options record),
lines 92-102 (the `openaiOptions` record) — both before dispatch — and
lines 238-252 (the raw-response record) after receipt. -/
inductive LogEvent where
  | preDispatchOptions
  | preDispatchOpenai
  | postReceipt
  deriving Repr, DecidableEq

/-- Everything observable about one call: the returned value or thrown
error, the sequence of logger invocations, and the sequence of request
bodies handed to the transport (one per dispatch attempt). -/
structure RunOut (J : Type) where
  result : Except ClientError (ResultEnvelope J)
  logs : List LogEvent
  sentBodies : List RequestBody
  deriving Repr

/-- The invoker and retry controller, `createChatCompletion`
(lines 51-291).  Parameters:
* `parse` embeds `JSON.parse` (`none` = thrown `SyntaxError`);
* `provider` embeds the transport: attempt index and request body to
  either a transport rejection or a response;
* `modelName` is the client's configured model;
* `retries` is the retry budget (source default 3);
* `idx` numbers the dispatch attempts so that retries reach fresh
  provider responses.

The recursion on validation failure (lines 262-268) re-enters with the
same `options` and `retries - 1`, exactly as the source's self-call. -/
def createChatCompletion {J : Type} (parse : String → Option J)
    (provider : Nat → RequestBody → Except Unit ProviderResponse)
    (modelName : String) (options : Options J) :
    Nat → Nat → RunOut J
  | retries, idx =>
    let body := buildBody modelName options
    let preLogs : List LogEvent := [.preDispatchOptions, .preDispatchOpenai]
    match provider idx body with
    | .error _ =>
        { result := .error .transportFailure, logs := preLogs
          sentBodies := [body] }
    | .ok response =>
        let logs := preLogs ++ [.postReceipt]
        match options.response_model with
        | some rm =>
            match response.choices.head? with
            | none =>
                { result := .error .choicesAccessError, logs := logs
                  sentBodies := [body] }
            | some choice =>
                match choice.message.content with
                | none =>
                    { result := .error .emptyResponse, logs := logs
                      sentBodies := [body] }
                | some extractedData =>
                    if extractedData = "" then
                      { result := .error .emptyResponse, logs := logs
                        sentBodies := [body] }
                    else
                      match parse extractedData with
                      | none =>
                          { result := .error .jsonParseError, logs := logs
                            sentBodies := [body] }
                      | some parsedData =>
                          if rm.validate parsedData then
                            { result := .ok { data := .parsed parsedData
                                              usage := usageOf response }
                              logs := logs, sentBodies := [body] }
                          else
                            match retries with
                            | Nat.succ n =>
                                let rest := createChatCompletion parse provider
                                  modelName options n (idx + 1)
                                { result := rest.result
                                  logs := logs ++ rest.logs
                                  sentBodies := body :: rest.sentBodies }
                            | 0 =>
                                { result := .error .invalidSchema, logs := logs
                                  sentBodies := [body] }
        | none =>
            match response.choices.head? with
            | none =>
                { result := .error .choicesAccessError, logs := logs
                  sentBodies := [body] }
            | some choice =>
                { result := .ok { data := .raw choice.message.content
                                  usage := usageOf response }
                  logs := logs, sentBodies := [body] }

/-- The parts list of a normalized content value (empty for passthrough
string content). -/
def NormContent.partsList : NormContent → List NormPart
  | .str _ => []
  | .parts qs => qs

/-- The logger invocations of one complete attempt, in order: the options
record and the `openaiOptions` record before dispatch, the raw-response
record after receipt. -/
def attemptLogs : List LogEvent :=
  [.preDispatchOptions, .preDispatchOpenai, .postReceipt]

/-- The logger trace of `n` complete attempts. -/
def repeatedLogs : Nat → List LogEvent
  | 0 => []
  | n + 1 => attemptLogs ++ repeatedLogs n

/-! Concrete fixtures used by witnesses and counterexamples. -/

/-- A schema over `Bool` whose validate predicate is the identity. -/
def boolSchema : Schema Bool := { name := "Bool", validate := fun b => b }

/-- A schema that never validates. -/
def neverSchema : Schema Bool := { name := "Never", validate := fun _ => false }

/-- A toy embedding of `JSON.parse`: only the payload "VALID" parses. -/
def toyParse : String → Option Bool :=
  fun s => if s = "VALID" then some true else none

/-- An embedding of `JSON.parse` on which every payload parses. -/
def alwaysParse : String → Option Bool := fun _ => some true

/-- A one-choice provider response with the given textual payload. -/
def mkResp (content : Option String) : ProviderResponse :=
  { choices := [{ message := { content := content } }], usage := none }

/-- A single plain-string user message. -/
def oneUserMessage : List Message := [{ role := .user, content := .str "hi" }]

/-- Options requesting the `boolSchema` response model. -/
def schemaOptions : Options Bool :=
  { messages := oneUserMessage, image := none
    response_model := some boolSchema, tools := none, params := []
    requestId := none }

/-- Options requesting the never-validating response model. -/
def neverOptions : Options Bool :=
  { messages := oneUserMessage, image := none
    response_model := some neverSchema, tools := none, params := []
    requestId := none }

/-- Options requesting no response model. -/
def plainOptions : Options Bool :=
  { messages := oneUserMessage, image := none, response_model := none
    tools := none, params := [], requestId := none }

/-- A provider that answers "not json" on attempt 0 and "VALID" on every
later attempt. -/
def parseFailProvider : Nat → RequestBody → Except Unit ProviderResponse :=
  fun k _ => .ok (mkResp (some (if k = 0 then "not json" else "VALID")))

/-- A provider that always answers with the payload "VALID". -/
def okProvider : Nat → RequestBody → Except Unit ProviderResponse :=
  fun _ _ => .ok (mkResp (some "VALID"))

/-- A provider that always answers with a null payload. -/
def nullContentProvider : Nat → RequestBody → Except Unit ProviderResponse :=
  fun _ _ => .ok (mkResp none)

/-- A provider that always answers with an empty `choices` array. -/
def noChoicesProvider : Nat → RequestBody → Except Unit ProviderResponse :=
  fun _ _ => .ok { choices := [], usage := none }

/-! Helper lemmas about the normalizer. -/

/-- Re-classifying a wire-ready part yields that part back: classification
is determined by part shape and already-classified parts re-classify to
themselves, the empty-text fallback part included. -/
theorem classifyPart_normPartToRaw (p : NormPart) :
    classifyPart (normPartToRaw p) = p := by
  cases p with
  | text t => by_cases h : t = "" <;> simp [normPartToRaw, classifyPart, h]
  | image u => rfl

/-- Re-classifying a whole wire-ready part list yields it back. -/
theorem classifyParts_map_normPartToRaw (l : List NormPart) :
    classifyParts (l.map normPartToRaw) = l := by
  simp [classifyParts, List.map_map, Function.comp_def, classifyPart_normPartToRaw]

/-- The text-part filter is idempotent. -/
theorem filter_isTextPart_filter (l : List NormPart) :
    (l.filter NormPart.isTextPart).filter NormPart.isTextPart =
      l.filter NormPart.isTextPart := by
  induction l with
  | nil => rfl
  | cons a l ih => cases a <;> simp [NormPart.isTextPart, List.filter_cons, ih]

/-- C4: for a message whose content is an array of parts, normalization of
a system or assistant message keeps only text parts (image parts are
dropped, possibly leaving an empty part list, and the message is never
rejected), while a user message keeps every classified part — one output
part per input part, image parts included. -/
theorem arrayContent_role_filtering (img : Option ImageAttachment)
    (role : Role) (ps : List RawPart) :
    (role ≠ .user →
      ((formatMessage img ⟨role, .parts ps⟩).content.partsList.all
        NormPart.isTextPart) = true) ∧
    formatMessage img ⟨.user, .parts ps⟩ =
      { role := .user, content := .parts (ps.map classifyPart) } ∧
    (ps.map classifyPart).length = ps.length := by
  refine ⟨?_, rfl, by simp⟩
  intro h
  cases role with
  | user => exact absurd rfl h
  | system =>
      show ((classifyParts ps).filter NormPart.isTextPart).all
        NormPart.isTextPart = true
      simp only [List.all_eq_true]
      intro q hq
      exact List.of_mem_filter hq
  | assistant =>
      show ((classifyParts ps).filter NormPart.isTextPart).all
        NormPart.isTextPart = true
      simp only [List.all_eq_true]
      intro q hq
      exact List.of_mem_filter hq

/-- Witness for C4: a system message carrying a single image part
normalizes to a message all of whose parts are text parts (here: the
empty list). -/
theorem arrayContent_role_filtering_witness :
    ((formatMessage none
        ⟨.system, .parts [{ image_url := some "u", text := none }]⟩).content.partsList.all
      NormPart.isTextPart) = true :=
  (arrayContent_role_filtering none .system
    [{ image_url := some "u", text := none }]).1 (by decide)

/-- C5: a plain-string user message with a present image attachment
normalizes to exactly two parts — the original text verbatim, then the
image reference; a bare URL string or a `\x7burl\x7d` object is used
verbatim, and a `\x7bbuffer\x7d` object becomes a base64 data URI with
the fixed MIME type `image/jpeg`, whatever the bytes are. -/
theorem stringContent_attachment_merge (s u : String) (bs : List Nat) :
    formatMessage (some (.urlString u)) ⟨.user, .str s⟩ =
      { role := .user, content := .parts [.text s, .image u] } ∧
    formatMessage (some (.urlObj u)) ⟨.user, .str s⟩ =
      { role := .user, content := .parts [.text s, .image u] } ∧
    formatMessage (some (.bufferObj bs)) ⟨.user, .str s⟩ =
      { role := .user
        content := .parts [.text s,
          .image ("data:image/jpeg;base64," ++ base64Encode bs)] } :=
  ⟨rfl, rfl, rfl⟩

/-- C6: for a message whose content is already an array of parts, the
standalone image attachment has no effect: normalization gives the same
output whether the attachment is present, absent, or different. -/
theorem arrayContent_ignores_attachment (role : Role) (ps : List RawPart)
    (img img' : Option ImageAttachment) :
    formatMessage img ⟨role, .parts ps⟩ = formatMessage img' ⟨role, .parts ps⟩ := by
  cases role <;> rfl

/-- C7: normalization of array-content messages is idempotent — feeding a
normalized message back through the normalizer (under any attachment)
reproduces it exactly, for every role. -/
theorem normalization_idempotent (img img' : Option ImageAttachment)
    (role : Role) (ps : List RawPart) :
    formatMessage img' (normMessageToMessage (formatMessage img ⟨role, .parts ps⟩)) =
      formatMessage img ⟨role, .parts ps⟩ := by
  cases role <;>
    simp [formatMessage, normMessageToMessage, classifyParts_map_normPartToRaw,
      filter_isTextPart_filter]

/-- C3: with a response schema requested, a response whose textual payload
is absent (`null`) or empty fails immediately with `EmptyResponse` after a
single dispatch, for every remaining retry budget — this path never
consults the budget. -/
theorem schema_empty_payload_no_retry {J : Type} (parse : String → Option J)
    (provider : Nat → RequestBody → Except Unit ProviderResponse)
    (modelName : String) (options : Options J) (rm : Schema J)
    (resp : ProviderResponse) (choice : Choice) (retries idx : Nat)
    (hrm : options.response_model = some rm)
    (hprov : provider idx (buildBody modelName options) = .ok resp)
    (hhead : resp.choices.head? = some choice)
    (hempty : choice.message.content = none ∨ choice.message.content = some "") :
    createChatCompletion parse provider modelName options retries idx =
      { result := .error .emptyResponse, logs := attemptLogs
        sentBodies := [buildBody modelName options] } := by
  unfold createChatCompletion
  simp only [hprov, hrm, hhead]
  rcases hempty with h | h <;> simp [h, attemptLogs]

/-- Witness for C3: with a null payload and retry budget 5, the call ends
after one dispatch with `EmptyResponse`. -/
theorem schema_empty_payload_no_retry_witness :
    createChatCompletion toyParse nullContentProvider "gpt" schemaOptions 5 0 =
      { result := .error .emptyResponse, logs := attemptLogs
        sentBodies := [buildBody "gpt" schemaOptions] } :=
  schema_empty_payload_no_retry toyParse nullContentProvider "gpt" schemaOptions
    boolSchema (mkResp none) { message := { content := none } } 5 0
    rfl rfl rfl (Or.inl rfl)

/-- C2: with a response schema requested and every payload parsing but
failing the validate predicate, a retry budget of `N` yields exactly
`N + 1` dispatch attempts — every attempt sending the identical request
body built from the unchanged original options — and the call then fails
with `InvalidSchema`; the logger fires three times per attempt. -/
theorem retry_budget_exhaustion {J : Type} (parse : String → Option J)
    (provider : Nat → RequestBody → Except Unit ProviderResponse)
    (modelName : String) (options : Options J) (rm : Schema J)
    (s : Nat → String) (v : Nat → J) (u : Nat → Option UsageIn)
    (tl : Nat → List Choice)
    (hrm : options.response_model = some rm)
    (hprov : ∀ k, provider k (buildBody modelName options) =
      .ok { choices := { message := { content := some (s k) } } :: tl k
            usage := u k })
    (hne : ∀ k, s k ≠ "")
    (hparse : ∀ k, parse (s k) = some (v k))
    (hval : ∀ k, rm.validate (v k) = false)
    (N idx : Nat) :
    (createChatCompletion parse provider modelName options N idx).result =
        .error .invalidSchema ∧
    (createChatCompletion parse provider modelName options N idx).sentBodies =
        List.replicate (N + 1) (buildBody modelName options) ∧
    (createChatCompletion parse provider modelName options N idx).logs =
        repeatedLogs (N + 1) := by
  induction N generalizing idx with
  | zero =>
      unfold createChatCompletion
      simp only [hprov, hrm]
      simp [hne idx, hparse idx, hval idx, attemptLogs, repeatedLogs]
  | succ n ih =>
      obtain ⟨ih1, ih2, ih3⟩ := ih (idx + 1)
      unfold createChatCompletion
      simp only [hprov, hrm]
      simp [hne idx, hparse idx, hval idx, ih1, ih2, ih3, attemptLogs,
        repeatedLogs, List.replicate_succ]

/-- Witness for C2: with budget 2 and a never-validating schema, exactly 3
identical dispatches occur and the call fails with `InvalidSchema`. -/
theorem retry_budget_exhaustion_witness :
    (createChatCompletion alwaysParse okProvider "gpt" neverOptions 2 0).result =
        .error .invalidSchema ∧
    (createChatCompletion alwaysParse okProvider "gpt" neverOptions 2 0).sentBodies =
        List.replicate 3 (buildBody "gpt" neverOptions) ∧
    (createChatCompletion alwaysParse okProvider "gpt" neverOptions 2 0).logs =
        repeatedLogs 3 :=
  retry_budget_exhaustion alwaysParse okProvider "gpt" neverOptions neverSchema
    (fun _ => "VALID") (fun _ => true) (fun _ => none) (fun _ => [])
    rfl (fun _ => rfl) (fun _ => by show ("VALID" : String) ≠ ""; decide)
    (fun _ => rfl) (fun _ => rfl) 2 0

/-- C9: with no response schema requested, the call cannot fail with
`EmptyResponse`; given a response with at least one choice it terminates
successfully after one dispatch, wrapping the raw (possibly null) payload,
and every usage counter the provider omits defaults to 0. -/
theorem no_schema_single_attempt {J : Type} (parse parse2 : String → Option J)
    (provider provider2 : Nat → RequestBody → Except Unit ProviderResponse)
    (modelName modelName2 : String) (options : Options J)
    (retries idx retries2 idx2 : Nat)
    (resp r : ProviderResponse) (choice : Choice)
    (hrm : options.response_model = none)
    (hprov : provider idx (buildBody modelName options) = .ok resp)
    (hhead : resp.choices.head? = some choice)
    (hru : r.usage = none) :
    createChatCompletion parse provider modelName options retries idx =
      { result := .ok { data := .raw choice.message.content
                        usage := usageOf resp }
        logs := attemptLogs, sentBodies := [buildBody modelName options] } ∧
    (createChatCompletion parse2 provider2 modelName2 options retries2 idx2).result ≠
        .error .emptyResponse ∧
    usageOf r = { prompt_tokens := 0, completion_tokens := 0, total_tokens := 0 } := by
  refine ⟨?_, ?_, ?_⟩
  · unfold createChatCompletion
    simp [hprov, hrm, hhead, attemptLogs]
  · cases hp : provider2 idx2 (buildBody modelName2 options) with
    | error e => unfold createChatCompletion; simp [hp, hrm]
    | ok resp2 =>
        cases hh : resp2.choices.head? with
        | none => unfold createChatCompletion; simp [hp, hrm, hh]
        | some c => unfold createChatCompletion; simp [hp, hrm, hh]
  · simp [usageOf, hru]

/-- Witness for C9: a null payload without a schema yields success with
null data and all-zero usage after one dispatch. -/
theorem no_schema_single_attempt_witness :
    createChatCompletion toyParse nullContentProvider "gpt" plainOptions 3 0 =
      { result := .ok { data := .raw none, usage := usageOf (mkResp none) }
        logs := attemptLogs, sentBodies := [buildBody "gpt" plainOptions] } ∧
    (createChatCompletion toyParse nullContentProvider "gpt" plainOptions 3 0).result ≠
        .error .emptyResponse ∧
    usageOf (mkResp none) =
      { prompt_tokens := 0, completion_tokens := 0, total_tokens := 0 } :=
  no_schema_single_attempt toyParse toyParse nullContentProvider nullContentProvider
    "gpt" "gpt" plainOptions 3 0 3 0 (mkResp none) (mkResp none)
    { message := { content := none } } rfl rfl rfl rfl

/-- C10: a response with an empty `choices` array makes the client fail
with the untyped runtime error from `response.choices[0].message` — an
error distinct from `EmptyResponse`, `InvalidSchema` and
`TransportFailure` — while under the precondition that every response has
at least one choice this error can never occur, on either the schema or
the no-schema path. -/
theorem choices_empty_untyped_error {J : Type} (parse : String → Option J)
    (provider provider2 : Nat → RequestBody → Except Unit ProviderResponse)
    (modelName : String) (options : Options J)
    (retries idx N2 idx2 : Nat) (resp : ProviderResponse)
    (hprov : provider idx (buildBody modelName options) = .ok resp)
    (hempty : resp.choices = [])
    (hgood : ∀ k r2, provider2 k (buildBody modelName options) = .ok r2 →
      r2.choices ≠ []) :
    (createChatCompletion parse provider modelName options retries idx).result =
        .error .choicesAccessError ∧
    ClientError.choicesAccessError ≠ .emptyResponse ∧
    ClientError.choicesAccessError ≠ .invalidSchema ∧
    ClientError.choicesAccessError ≠ .transportFailure ∧
    (createChatCompletion parse provider2 modelName options N2 idx2).result ≠
        .error .choicesAccessError := by
  refine ⟨?_, by decide, by decide, by decide, ?_⟩
  · unfold createChatCompletion
    cases hrm : options.response_model <;> simp [hprov, hempty, hrm]
  · induction N2 generalizing idx2 with
    | zero =>
        cases hp : provider2 idx2 (buildBody modelName options) with
        | error e => unfold createChatCompletion; simp [hp]
        | ok r2 =>
            obtain ⟨c, t, hc⟩ : ∃ c t, r2.choices = c :: t := by
              cases hcc : r2.choices with
              | nil => exact absurd hcc (hgood idx2 r2 hp)
              | cons c t => exact ⟨c, t, rfl⟩
            unfold createChatCompletion
            simp only [hp, hc]
            repeat' split
            all_goals simp_all
    | succ n ih =>
        cases hp : provider2 idx2 (buildBody modelName options) with
        | error e => unfold createChatCompletion; simp [hp]
        | ok r2 =>
            obtain ⟨c, t, hc⟩ : ∃ c t, r2.choices = c :: t := by
              cases hcc : r2.choices with
              | nil => exact absurd hcc (hgood idx2 r2 hp)
              | cons c t => exact ⟨c, t, rfl⟩
            unfold createChatCompletion
            simp only [hp, hc]
            repeat' split
            all_goals simp_all

/-- Witness for C10: an empty `choices` array yields the untyped access
error; a provider always returning one choice never does. -/
theorem choices_empty_untyped_error_witness :
    (createChatCompletion toyParse noChoicesProvider "gpt" schemaOptions 3 0).result =
        .error .choicesAccessError ∧
    ClientError.choicesAccessError ≠ .emptyResponse ∧
    ClientError.choicesAccessError ≠ .invalidSchema ∧
    ClientError.choicesAccessError ≠ .transportFailure ∧
    (createChatCompletion toyParse okProvider "gpt" schemaOptions 3 0).result ≠
        .error .choicesAccessError :=
  choices_empty_untyped_error toyParse noChoicesProvider okProvider "gpt"
    schemaOptions 3 0 3 0 { choices := [], usage := none } rfl rfl
    (fun k r2 h => by
      simp only [okProvider] at h
      cases h
      simp [mkResp])

/-- Counterexample to C1: in the exact scenario the claim describes —
schema requested, retry budget 1, attempt 1 answering "not json", attempt
2 answering a payload that parses and validates — the code makes exactly 1
dispatch (not 2) and fails with the uncaught `JSON.parse` error instead of
terminating successfully: the parse error is thrown before the retry check
is ever reached. -/
theorem parse_failure_scenario_cex :
    (createChatCompletion toyParse parseFailProvider "gpt" schemaOptions 1 0).result =
        .error .jsonParseError ∧
    (createChatCompletion toyParse parseFailProvider "gpt" schemaOptions 1 0).sentBodies.length
        = 1 ∧
    (createChatCompletion toyParse parseFailProvider "gpt" schemaOptions 1 0).sentBodies.length
        ≠ 2 := by
  refine ⟨rfl, rfl, by decide⟩

/-- C1 (amended): a non-empty payload that fails to parse is NOT handled
like a validation failure — `JSON.parse`'s exception propagates uncaught,
so for every retry budget the call terminates after that single dispatch
with the untyped parse error, never with `InvalidSchema` and never
retrying. -/
theorem parse_failure_uncaught {J : Type} (parse : String → Option J)
    (provider : Nat → RequestBody → Except Unit ProviderResponse)
    (modelName : String) (options : Options J) (rm : Schema J)
    (resp : ProviderResponse) (choice : Choice) (s : String) (retries idx : Nat)
    (hrm : options.response_model = some rm)
    (hprov : provider idx (buildBody modelName options) = .ok resp)
    (hhead : resp.choices.head? = some choice)
    (hcont : choice.message.content = some s)
    (hne : s ≠ "") (hparse : parse s = none) :
    createChatCompletion parse provider modelName options retries idx =
      { result := .error .jsonParseError, logs := attemptLogs
        sentBodies := [buildBody modelName options] } := by
  unfold createChatCompletion
  simp [hprov, hrm, hhead, hcont, hne, hparse, attemptLogs]

/-- Witness for C1 (amended): the "not json" scenario ends after one
dispatch with the uncaught parse error. -/
theorem parse_failure_uncaught_witness :
    createChatCompletion toyParse parseFailProvider "gpt" schemaOptions 1 0 =
      { result := .error .jsonParseError, logs := attemptLogs
        sentBodies := [buildBody "gpt" schemaOptions] } :=
  parse_failure_uncaught toyParse parseFailProvider "gpt" schemaOptions boolSchema
    (mkResp (some "not json")) { message := { content := some "not json" } }
    "not json" 1 0 rfl rfl rfl rfl (by decide) rfl

/-- Counterexample to C8: a single-attempt call invokes the logging sink
three times, not two — twice before dispatch (the options record and the
`openaiOptions` record) and once after receipt. -/
theorem logger_two_invocations_cex :
    (createChatCompletion toyParse okProvider "gpt" plainOptions 0 0).sentBodies.length
        = 1 ∧
    (createChatCompletion toyParse okProvider "gpt" plainOptions 0 0).logs =
      [.preDispatchOptions, .preDispatchOpenai, .postReceipt] ∧
    (createChatCompletion toyParse okProvider "gpt" plainOptions 0 0).logs.length ≠ 2 ∧
    ((createChatCompletion toyParse okProvider "gpt" plainOptions 0 0).logs.count
        LogEvent.preDispatchOptions +
      (createChatCompletion toyParse okProvider "gpt" plainOptions 0 0).logs.count
        LogEvent.preDispatchOpenai) = 2 := by
  refine ⟨rfl, rfl, by decide, by decide⟩

/-- C8 (amended): on every attempt that receives a response the logging
sink is invoked exactly three times — twice immediately before dispatch
and once immediately after receipt — so a call of `n` dispatch attempts
produces exactly the trace of `n` repetitions of that three-event pattern;
the invocations are informational and the result is computed without
consulting them. -/
theorem logger_trace_three_per_attempt {J : Type} (parse : String → Option J)
    (provider : Nat → RequestBody → Except Unit ProviderResponse)
    (modelName : String) (options : Options J)
    (h : ∀ k b, ∃ r, provider k b = .ok r) (retries idx : Nat) :
    (createChatCompletion parse provider modelName options retries idx).logs =
      repeatedLogs
        (createChatCompletion parse provider modelName options retries idx).sentBodies.length := by
  induction retries generalizing idx with
  | zero =>
      obtain ⟨r, hr⟩ := h idx (buildBody modelName options)
      unfold createChatCompletion
      simp only [hr]
      repeat' split
      all_goals simp [attemptLogs, repeatedLogs]
  | succ n ih =>
      obtain ⟨r, hr⟩ := h idx (buildBody modelName options)
      unfold createChatCompletion
      simp only [hr]
      repeat' split
      all_goals simp [attemptLogs, repeatedLogs, ih (idx + 1)]

/-- Witness for C8 (amended): three attempts yield the three-event pattern
three times over. -/
theorem logger_trace_three_per_attempt_witness :
    (createChatCompletion alwaysParse okProvider "gpt" neverOptions 2 0).logs =
      repeatedLogs
        (createChatCompletion alwaysParse okProvider "gpt" neverOptions 2 0).sentBodies.length :=
  logger_trace_three_per_attempt alwaysParse okProvider "gpt" neverOptions
    (fun _ _ => ⟨mkResp (some "VALID"), rfl⟩) 2 0

end CustomOpenAI
